import Mathlib

/-!
Shallow embedding of `filament/src/fg/fg/RenderTargetResourceEntry.cpp`
(namespace `filament::fg`), the composite render-target resource entry of
the frame-graph resource-virtualization core, together with the minimal
state of its collaborators (`FrameGraph`, texture `ResourceEntry`,
`ResourceNode`) that its five operations read or write.

Machine integers of the C++ (uint32_t dimensions, uint8_t sample counts and
mip levels) are modelled as `Nat`; the only place where a fixed-width
sentinel matters is `resolve`'s `minWidth/minHeight` initialisation to
`std::numeric_limits<uint32_t>::max()`, kept as the literal `4294967295`.
Backend handles (`Handle<HwTexture>`, `Handle<HwRenderTarget>`) are
`Option Nat`, `none` standing for a null/uninitialised handle, matching the
C++ truthiness tests on handles. Calls into the external
`ResourceAllocator` are reified as explicit event values returned next to
the new state.
-/

namespace FgModel

/-- `backend::TargetBufferFlags` restricted to the three bits this file
uses: COLOR, DEPTH, STENCIL. -/
structure TargetBufferFlags where
  color : Bool
  depth : Bool
  stencil : Bool
deriving DecidableEq, Repr

/-- `TargetBufferFlags::NONE`. -/
def TargetBufferFlags.NONE : TargetBufferFlags := ⟨false, false, false⟩

/-- Bitwise `|` on `TargetBufferFlags`. -/
def TargetBufferFlags.or (a b : TargetBufferFlags) : TargetBufferFlags :=
  ⟨a.color || b.color, a.depth || b.depth, a.stencil || b.stencil⟩

/-- `any(flags)`: some bit is set. -/
def TargetBufferFlags.any (a : TargetBufferFlags) : Bool :=
  a.color || a.depth || a.stencil

/-- Project the bit of attachment slot `0`, `1` or `2` (color, depth,
stencil) out of a flag mask. -/
def TargetBufferFlags.get (a : TargetBufferFlags) : Nat → Bool
  | 0 => a.color
  | 1 => a.depth
  | _ => a.stencil

/-- The `flags[]` table of the C++ file: the single-bit mask of slot `i`. -/
def slotFlag : Nat → TargetBufferFlags
  | 0 => ⟨true, false, false⟩
  | 1 => ⟨false, true, false⟩
  | _ => ⟨false, false, true⟩

/-- `backend::TextureUsage` restricted to the bits this file uses:
the three `*_ATTACHMENT` bits and `SAMPLEABLE`. -/
structure TextureUsage where
  colorAttachment : Bool
  depthAttachment : Bool
  stencilAttachment : Bool
  sampleable : Bool
deriving DecidableEq, Repr

/-- The `usages[]` table of the C++ file: `entry.descriptor.usage |= usages[i]`
for slot `i`. -/
def orUsage (slot : Nat) (u : TextureUsage) : TextureUsage :=
  match slot with
  | 0 => { u with colorAttachment := true }
  | 1 => { u with depthAttachment := true }
  | _ => { u with stencilAttachment := true }

/-- `FrameGraphTexture::Descriptor`: the fields read or written here. -/
structure TextureDescriptor where
  width : Nat
  height : Nat
  levels : Nat
  samples : Nat
  usage : TextureUsage
deriving DecidableEq, Repr

/-- The realised side of a texture entry: `FrameGraphTexture::texture`,
the real backend texture handle (`none` = null). -/
structure TextureResource where
  texture : Option Nat
deriving DecidableEq, Repr

/-- `fg::ResourceEntry<FrameGraphTexture>`: declared descriptor plus the
real resource. -/
structure TextureEntry where
  descriptor : TextureDescriptor
  resource : TextureResource
deriving DecidableEq, Repr

/-- `FrameGraphRenderTarget::Attachments::AttachmentInfo`: a virtual
texture handle (`none` = invalid/uninitialised) plus a mip level.
`isValid()` is handle validity. -/
structure AttachmentInfo where
  handle : Option Nat
  level : Nat
deriving DecidableEq, Repr

/-- `AttachmentInfo::isValid()`. -/
def AttachmentInfo.isValid (a : AttachmentInfo) : Bool := a.handle.isSome

/-- The index carried by the handle (`attachment.getHandle().index`);
only meaningful when the attachment is valid. -/
def AttachmentInfo.index (a : AttachmentInfo) : Nat := a.handle.getD 0

/-- `descriptor.attachments.textures`, the ordered color/depth/stencil
slots. -/
structure Attachments where
  color : AttachmentInfo
  depth : AttachmentInfo
  stencil : AttachmentInfo
deriving DecidableEq, Repr

/-- Slot `i` of the attachment array. -/
def slotAtt (a : Attachments) : Nat → AttachmentInfo
  | 0 => a.color
  | 1 => a.depth
  | _ => a.stencil

/-- `FrameGraphRenderTarget::Descriptor`: the attachment set, the requested
sample count and the user clear mask. -/
structure RTDescriptor where
  attachments : Attachments
  samples : Nat
  clearFlags : TargetBufferFlags
deriving DecidableEq, Repr

/-- `Viewport` (only width/height are touched here). -/
structure Viewport where
  width : Nat
  height : Nat
deriving DecidableEq, Repr

/-- `RenderPassParams::flags`: clear / discardStart / discardEnd masks. -/
structure RenderPassFlags where
  clear : TargetBufferFlags
  discardStart : TargetBufferFlags
  discardEnd : TargetBufferFlags
deriving DecidableEq, Repr

/-- `RenderPassParams`: the fields this file touches. -/
structure RenderPassParams where
  viewport : Viewport
  flags : RenderPassFlags
deriving DecidableEq, Repr

/-- `FrameGraphRenderTarget` (the `Resource` of this entry): the real
composite render-target handle (`none` = null) and the pass params. -/
structure FGRenderTarget where
  target : Option Nat
  params : RenderPassParams
deriving DecidableEq, Repr

/-- `fg::RenderTargetResourceEntry`: name, imported flag, descriptor,
the resolved attachment mask and dimensions, and the resource. -/
structure RenderTargetResourceEntry where
  name : String
  imported : Bool
  descriptor : RTDescriptor
  attachments : TargetBufferFlags
  width : Nat
  height : Nat
  resource : FGRenderTarget
deriving DecidableEq, Repr

/-- `fg::ResourceNode`: the per-(resource, pass) discard intents read by
`update`. -/
structure ResourceNodeInfo where
  discardStart : Bool
  discardEnd : Bool
deriving DecidableEq, Repr

/-- The slice of `FrameGraph` state these operations read or write:
`getResourceEntryUnchecked` (texture entries by handle index, total since
the C++ access is unchecked) and `mResourceNodes` (by handle index). -/
structure FrameGraph where
  textureEntries : Nat → TextureEntry
  resourceNodes : Nat → ResourceNodeInfo

/-- Modelled from the spec: `details::FTexture::valueForLevel` is declared
in `details/Texture.h`, which is not part of the sources; the spec defines
the mip-scaled dimension as "a texture's base width/height right-shifted by
its requested mip (detail) level". -/
def valueForLevel (level base : Nat) : Nat := base >>> level

/-- The loop state of `RenderTargetResourceEntry::resolve`: the mutated
frame graph, the accumulated attachment mask and the min/max dimension
accumulators. -/
structure ResolveState where
  fg : FrameGraph
  attachments : TargetBufferFlags
  minW : Nat
  maxW : Nat
  minH : Nat
  maxH : Nat

/-- The cross-entry write of `resolve`'s loop body on the referenced
texture entry: `usage |= usages[i]`, then
`if (!samples && none(usage & SAMPLEABLE)) samples = descriptor.samples`. -/
def stepEntry (rt : RTDescriptor) (slot : Nat) (t : TextureEntry) : TextureEntry :=
  let u := orUsage slot t.descriptor.usage
  { t with descriptor :=
      { t.descriptor with
        usage := u
        samples :=
          if t.descriptor.samples == 0 && !u.sampleable then rt.samples
          else t.descriptor.samples } }

/-- One iteration of `resolve`'s attachment loop (slot `slot`, attachment
`att`): skip invalid slots; otherwise update the referenced texture entry,
set the slot's bit, and fold the mip-scaled dimensions into the min/max
accumulators. -/
def resolveSlot (rt : RTDescriptor) (slot : Nat) (att : AttachmentInfo)
    (s : ResolveState) : ResolveState :=
  if att.isValid then
    let entry := s.fg.textureEntries att.index
    let fg1 : FrameGraph :=
      { s.fg with textureEntries :=
          Function.update s.fg.textureEntries att.index (stepEntry rt slot entry) }
    let w := valueForLevel att.level entry.descriptor.width
    let h := valueForLevel att.level entry.descriptor.height
    { fg := fg1
      attachments := s.attachments.or (slotFlag slot)
      minW := Nat.min s.minW w
      maxW := Nat.max s.maxW w
      minH := Nat.min s.minH h
      maxH := Nat.max s.maxH h }
  else s

/-- The loop of `resolve` run over the three slots, started from the reset
accumulators (`attachments = {}`, min = `uint32` max sentinel, max = 0). -/
def resolveFinalState (d : RTDescriptor) (fg : FrameGraph) : ResolveState :=
  resolveSlot d 2 d.attachments.stencil
    (resolveSlot d 1 d.attachments.depth
      (resolveSlot d 0 d.attachments.color
        ⟨fg, TargetBufferFlags.NONE, 4294967295, 0, 4294967295, 0⟩))

/-- `RenderTargetResourceEntry::resolve`: reset the resolved fields, run
the attachment loop, then derive width/height (common value when min==max
in both axes, otherwise the maxima), default the viewport and latch the
clear mask when any slot is active. Returns the updated entry and the
updated frame graph. -/
def resolve (e : RenderTargetResourceEntry) (fg : FrameGraph) :
    RenderTargetResourceEntry × FrameGraph :=
  let s := resolveFinalState e.descriptor fg
  if s.attachments.any then
    let wh : Nat × Nat :=
      if s.minW == s.maxW && s.minH == s.maxH then (s.minW, s.minH)
      else (s.maxW, s.maxH)
    let vp := e.resource.params.viewport
    let vp1 := if vp.width == 0 && vp.height == 0 then ⟨wh.1, wh.2⟩ else vp
    ({ e with
        attachments := s.attachments
        width := wh.1
        height := wh.2
        resource :=
          { e.resource with params :=
              { viewport := vp1
                flags := { e.resource.params.flags with clear := e.descriptor.clearFlags } } } },
      s.fg)
  else
    ({ e with attachments := s.attachments, width := 0, height := 0 }, s.fg)

/-- The discard mask accumulated by `update`'s loop: for each valid slot,
OR the slot's bit in when this pass's resource node for that attachment
sets the selected discard intent (`sel` picks `discardStart` or
`discardEnd`). -/
def nodeDiscardFlags (fg : FrameGraph) (a : Attachments)
    (sel : ResourceNodeInfo → Bool) : TargetBufferFlags :=
  let m0 :=
    if a.color.isValid && sel (fg.resourceNodes a.color.index) then
      TargetBufferFlags.NONE.or (slotFlag 0)
    else TargetBufferFlags.NONE
  let m1 :=
    if a.depth.isValid && sel (fg.resourceNodes a.depth.index) then m0.or (slotFlag 1)
    else m0
  if a.stencil.isValid && sel (fg.resourceNodes a.stencil.index) then m1.or (slotFlag 2)
  else m1

/-- `RenderTargetResourceEntry::update`: when any slot is active, overwrite
`discardStart`/`discardEnd` from the pass's resource nodes, then OR the
clear mask into `discardStart`; finally the non-fatal
`ASSERT_POSTCONDITION_NON_FATAL(resource.target, "Pass ... doesn't declare
rendertarget ...")`. Returns the updated entry and whether the non-fatal
diagnostic was raised (the assert condition `resource.target` was false). -/
def updateEntry (fg : FrameGraph) (e : RenderTargetResourceEntry) :
    RenderTargetResourceEntry × Bool :=
  if e.attachments.any then
    let ds := (nodeDiscardFlags fg e.descriptor.attachments fun n => n.discardStart).or
      e.resource.params.flags.clear
    let de := nodeDiscardFlags fg e.descriptor.attachments fun n => n.discardEnd
    ({ e with resource :=
        { e.resource with params :=
            { e.resource.params with flags :=
                { e.resource.params.flags with discardStart := ds, discardEnd := de } } } },
      !e.resource.target.isSome)
  else (e, false)

/-- `backend::TargetBufferInfo`: real texture handle plus mip level;
default-constructed (`{}`) is a null handle at level 0. -/
structure TargetBufferInfo where
  handle : Option Nat
  level : Nat
deriving DecidableEq, Repr

/-- A default-constructed `TargetBufferInfo` (`infos[i]` before the loop,
and the `{}` third argument of `createRenderTarget`). -/
def TargetBufferInfo.default : TargetBufferInfo := ⟨none, 0⟩

/-- The `infos[i]` record built by `preExecuteDevirtualize` for a slot:
the referenced entry's real texture handle and the attachment's level for
a valid slot, the default record otherwise. -/
def buildInfo (fg : FrameGraph) (att : AttachmentInfo) : TargetBufferInfo :=
  if att.isValid then ⟨(fg.textureEntries att.index).resource.texture, att.level⟩
  else TargetBufferInfo.default

/-- The reified `ResourceAllocator::createRenderTarget` call: name, active
attachment mask, resolved dimensions, sample count and the three per-slot
`TargetBufferInfo` arguments, in the order of the C++ call. -/
structure CreateCall where
  name : String
  attachments : TargetBufferFlags
  width : Nat
  height : Nat
  samples : Nat
  color : TargetBufferInfo
  depth : TargetBufferInfo
  stencil : TargetBufferInfo
deriving DecidableEq, Repr

/-- The assertions of `preExecuteDevirtualize`'s loop for one slot: the
debug check `bool(attachments & flags[i]) == attachmentInfo.isValid()`,
and for a valid slot: real handle non-null, level within the declared
level count, and `samples <= 1 || samples == descriptor.samples`. -/
def slotAssertOk (fg : FrameGraph) (rt : RTDescriptor) (mask : TargetBufferFlags)
    (slot : Nat) (att : AttachmentInfo) : Bool :=
  (mask.get slot == att.isValid) &&
  (if att.isValid then
    let entry := fg.textureEntries att.index
    entry.resource.texture.isSome &&
    decide (att.level < entry.descriptor.levels) &&
    (decide (entry.descriptor.samples ≤ 1) || entry.descriptor.samples == rt.samples)
  else true)

/-- `RenderTargetResourceEntry::preExecuteDevirtualize`: a no-op for
imported entries; otherwise assert `any(attachments)` and the per-slot
assertions, build the `infos[]` records, and call
`createRenderTarget(name, attachments, width, height, descriptor.samples,
infos[0], infos[1], {})` — note the third (stencil) argument of the call
is the default-constructed `{}`, not `infos[2]`. `newHandle` is the
(non-null, per the allocator contract) handle the allocator returns.
`none` models a fatal assertion failure; otherwise the updated entry is
returned with the allocator call made, if any. -/
def preExecuteDevirtualize (newHandle : Nat) (fg : FrameGraph)
    (e : RenderTargetResourceEntry) :
    Option (RenderTargetResourceEntry × Option CreateCall) :=
  if e.imported then some (e, none)
  else
    if e.attachments.any &&
        slotAssertOk fg e.descriptor e.attachments 0 e.descriptor.attachments.color &&
        slotAssertOk fg e.descriptor e.attachments 1 e.descriptor.attachments.depth &&
        slotAssertOk fg e.descriptor e.attachments 2 e.descriptor.attachments.stencil then
      let call : CreateCall :=
        { name := e.name
          attachments := e.attachments
          width := e.width
          height := e.height
          samples := e.descriptor.samples
          color := buildInfo fg e.descriptor.attachments.color
          depth := buildInfo fg e.descriptor.attachments.depth
          stencil := TargetBufferInfo.default }
      some ({ e with resource := { e.resource with target := some newHandle } }, some call)
    else none

/-- `RenderTargetResourceEntry::postExecuteDestroy`: when not imported and
the real target handle is set, call `destroyRenderTarget` on it and clear
the handle; a no-op otherwise. The second component is the handle passed
to `destroyRenderTarget`, when the call was made. -/
def postExecuteDestroy (e : RenderTargetResourceEntry) :
    RenderTargetResourceEntry × Option Nat :=
  if e.imported then (e, none)
  else
    match e.resource.target with
    | some t => ({ e with resource := { e.resource with target := none } }, some t)
    | none => (e, none)

/-- `RenderTargetResourceEntry::postExecuteDevirtualize`: unconditionally
reset the clear mask — after a render target has been used once, it is
never cleared any more. -/
def postExecuteDevirtualizeEntry (e : RenderTargetResourceEntry) :
    RenderTargetResourceEntry :=
  { e with resource :=
      { e.resource with params :=
          { e.resource.params with flags :=
              { e.resource.params.flags with clear := TargetBufferFlags.NONE } } } }

/-- One per-pass operation applied to an entry after resolve: used to state
invariants over arbitrary sequences of the per-pass protocol steps. -/
inductive FgOp where
  | update : FrameGraph → FgOp
  | devirtualize : Nat → FrameGraph → FgOp
  | destroy : FgOp
  | postDevirtualize : FgOp

/-- Apply one per-pass protocol step to an entry. An assertion failure in
`preExecuteDevirtualize` halts the program, so the entry is left as is. -/
def applyOp (e : RenderTargetResourceEntry) : FgOp → RenderTargetResourceEntry
  | .update fg => (updateEntry fg e).1
  | .devirtualize h fg =>
      match preExecuteDevirtualize h fg e with
      | some p => p.1
      | none => e
  | .destroy => (postExecuteDestroy e).1
  | .postDevirtualize => postExecuteDevirtualizeEntry e

/-- The all-false texture usage, for concrete instances. -/
def usageNone : TextureUsage := ⟨false, false, false, false⟩

/-- A concrete 512×256 texture entry with a real backing handle. -/
def texA : TextureEntry := ⟨⟨512, 256, 1, 1, usageNone⟩, ⟨some 1⟩⟩

/-- A concrete 256×512 texture entry with a real backing handle. -/
def texB : TextureEntry := ⟨⟨256, 512, 1, 1, usageNone⟩, ⟨some 2⟩⟩

/-- A concrete frame graph: texture 0 is `texA`, every other index `texB`. -/
def fgC1 : FrameGraph :=
  ⟨fun i => if i = 0 then texA else texB, fun _ => ⟨false, false⟩⟩

/-- A concrete entry with a color attachment on texture 0 and a depth
attachment on texture 1, both at mip level 0. -/
def eC1 : RenderTargetResourceEntry :=
  { name := "rt"
    imported := false
    descriptor :=
      { attachments := ⟨⟨some 0, 0⟩, ⟨some 1, 0⟩, ⟨none, 0⟩⟩
        samples := 1
        clearFlags := TargetBufferFlags.NONE }
    attachments := TargetBufferFlags.NONE
    width := 0
    height := 0
    resource := ⟨none, ⟨⟨0, 0⟩, ⟨TargetBufferFlags.NONE, TargetBufferFlags.NONE,
      TargetBufferFlags.NONE⟩⟩⟩ }

/-- `eC1` with stale resolved fields, to witness that previously resolved
state does not matter. -/
def eC10 : RenderTargetResourceEntry :=
  { eC1 with attachments := ⟨true, true, true⟩, width := 7, height := 9 }

/-- Modelled from the spec: the FrameGraph driver (`FrameGraph.cpp`, not
part of the sources) devirtualizes an entry during the pass that declared
it, before that pass's `update` runs, and keeps the real target alive
through the declared uses; the spec's "the executing pass is the pass that
originally declared this render target" is therefore observed by `update`
as the entry's real target handle being set — exactly the condition tested
by the non-fatal assert. -/
def passDeclaresTarget (e : RenderTargetResourceEntry) : Bool :=
  e.resource.target.isSome

/-- A concrete frame graph whose resource node 0 discards at start and
whose resource node 1 discards at end. -/
def fgC4 : FrameGraph :=
  ⟨fun i => if i = 0 then texA else texB,
   fun i => if i = 0 then ⟨true, false⟩ else if i = 1 then ⟨false, true⟩ else ⟨false, false⟩⟩

/-- A concrete resolved entry (color and depth slots active, no real
target yet) whose clear mask requests a color clear. -/
def eC4 : RenderTargetResourceEntry :=
  { eC1 with
      attachments := ⟨true, true, false⟩
      width := 512
      height := 512
      resource := ⟨none, ⟨⟨512, 512⟩, ⟨⟨true, false, false⟩, TargetBufferFlags.NONE,
        TargetBufferFlags.NONE⟩⟩⟩ }

/-- `eC4` with the real target handle set, as after devirtualization by
the declaring pass. -/
def eC5 : RenderTargetResourceEntry :=
  { eC4 with resource := { eC4.resource with target := some 11 } }

/-- An imported entry holding an externally supplied real target. -/
def eC6 : RenderTargetResourceEntry :=
  { eC4 with imported := true
             resource := { eC4.resource with target := some 42 } }

/-- A concrete 128×128 texture entry with a real backing handle `5`. -/
def texS : TextureEntry := ⟨⟨128, 128, 1, 1, usageNone⟩, ⟨some 5⟩⟩

/-- A concrete frame graph where every index maps to `texS`. -/
def fgC2 : FrameGraph := ⟨fun _ => texS, fun _ => ⟨false, false⟩⟩

/-- A stencil-only entry: only the stencil slot is valid, consistently with
its resolved attachment mask. -/
def eC2 : RenderTargetResourceEntry :=
  { name := "rt2"
    imported := false
    descriptor :=
      { attachments := ⟨⟨none, 0⟩, ⟨none, 0⟩, ⟨some 0, 0⟩⟩
        samples := 1
        clearFlags := TargetBufferFlags.NONE }
    attachments := ⟨false, false, true⟩
    width := 128
    height := 128
    resource := ⟨none, ⟨⟨128, 128⟩, ⟨TargetBufferFlags.NONE, TargetBufferFlags.NONE,
      TargetBufferFlags.NONE⟩⟩⟩ }

/-- `eC2` after devirtualization with allocator handle `9`. -/
def eC2r : RenderTargetResourceEntry :=
  { eC2 with resource := { eC2.resource with target := some 9 } }

/-- The composite-target creation call emitted for `eC2`. -/
def callC2 : CreateCall :=
  ⟨"rt2", ⟨false, false, true⟩, 128, 128, 1, TargetBufferInfo.default,
    TargetBufferInfo.default, TargetBufferInfo.default⟩

/-- A 256×256 texture entry with no explicit sample-count request (0) and
no SAMPLEABLE usage, backed by real handle `3`. -/
def texC : TextureEntry := ⟨⟨256, 256, 1, 0, usageNone⟩, ⟨some 3⟩⟩

/-- A concrete frame graph where every index maps to `texC`. -/
def fgC7 : FrameGraph := ⟨fun _ => texC, fun _ => ⟨false, false⟩⟩

/-- A color-only entry requesting sample count 4 on a 256×256 texture. -/
def eC7 : RenderTargetResourceEntry :=
  { eC1 with descriptor :=
      { attachments := ⟨⟨some 0, 0⟩, ⟨none, 0⟩, ⟨none, 0⟩⟩
        samples := 4
        clearFlags := TargetBufferFlags.NONE } }

/-- The per-valid-attachment preconditions of `preExecuteDevirtualize`, as
listed by the spec: real handle non-null, mip level strictly below the
declared level count, and a multisampled attachment's sample count equal
to the render target's. -/
def slotPrecondOk (fg : FrameGraph) (rt : RTDescriptor) (att : AttachmentInfo) : Prop :=
  att.isValid = true →
    ((fg.textureEntries att.index).resource.texture ≠ none ∧
     att.level < (fg.textureEntries att.index).descriptor.levels ∧
     ((fg.textureEntries att.index).descriptor.samples ≤ 1 ∨
      (fg.textureEntries att.index).descriptor.samples = rt.samples))

/-- The mip-scaled width of an attachment's referenced texture, as seen in
frame graph `fg`. -/
def slotW (fg : FrameGraph) (att : AttachmentInfo) : Nat :=
  valueForLevel att.level (fg.textureEntries att.index).descriptor.width

/-- The mip-scaled height of an attachment's referenced texture, as seen in
frame graph `fg`. -/
def slotH (fg : FrameGraph) (att : AttachmentInfo) : Nat :=
  valueForLevel att.level (fg.textureEntries att.index).descriptor.height

/-- The valid attachments of an attachment set, in slot order. -/
def validSlotsList (a : Attachments) : List AttachmentInfo :=
  (if a.color.isValid then [a.color] else []) ++
    (if a.depth.isValid then [a.depth] else []) ++
    (if a.stencil.isValid then [a.stencil] else [])

/-- The mask of valid slots of an attachment set. -/
def validityMask (a : Attachments) : TargetBufferFlags :=
  ⟨a.color.isValid, a.depth.isValid, a.stencil.isValid⟩

theorem resolveSlot_invalid (rt : RTDescriptor) (slot : Nat) (att : AttachmentInfo)
    (s : ResolveState) (h : att.isValid = false) : resolveSlot rt slot att s = s := by
  unfold resolveSlot
  simp [h]

theorem resolveSlot_fg_dims (rt : RTDescriptor) (slot : Nat) (att : AttachmentInfo)
    (s : ResolveState) (j : Nat) :
    ((resolveSlot rt slot att s).fg.textureEntries j).descriptor.width =
      ((s.fg.textureEntries j).descriptor.width) ∧
    ((resolveSlot rt slot att s).fg.textureEntries j).descriptor.height =
      ((s.fg.textureEntries j).descriptor.height) := by
  unfold resolveSlot
  split
  · by_cases hj : j = att.index
    · subst hj
      simp [Function.update, stepEntry]
    · simp [Function.update, hj]
  · exact ⟨rfl, rfl⟩

theorem resolveSlot_slotW (rt : RTDescriptor) (slot : Nat) (att : AttachmentInfo)
    (s : ResolveState) (a : AttachmentInfo) :
    slotW (resolveSlot rt slot att s).fg a = slotW s.fg a := by
  unfold slotW
  rw [(resolveSlot_fg_dims rt slot att s a.index).1]

theorem resolveSlot_slotH (rt : RTDescriptor) (slot : Nat) (att : AttachmentInfo)
    (s : ResolveState) (a : AttachmentInfo) :
    slotH (resolveSlot rt slot att s).fg a = slotH s.fg a := by
  unfold slotH
  rw [(resolveSlot_fg_dims rt slot att s a.index).2]

theorem resolveSlot_attachments (rt : RTDescriptor) (slot : Nat) (att : AttachmentInfo)
    (s : ResolveState) :
    (resolveSlot rt slot att s).attachments =
      if att.isValid then s.attachments.or (slotFlag slot) else s.attachments := by
  unfold resolveSlot
  split <;> rfl

theorem resolveSlot_maxW (rt : RTDescriptor) (slot : Nat) (att : AttachmentInfo)
    (s : ResolveState) :
    (resolveSlot rt slot att s).maxW =
      if att.isValid then Nat.max s.maxW (slotW s.fg att) else s.maxW := by
  unfold resolveSlot slotW
  split <;> rfl

theorem resolveSlot_maxH (rt : RTDescriptor) (slot : Nat) (att : AttachmentInfo)
    (s : ResolveState) :
    (resolveSlot rt slot att s).maxH =
      if att.isValid then Nat.max s.maxH (slotH s.fg att) else s.maxH := by
  unfold resolveSlot slotH
  split <;> rfl

theorem resolveFinalState_char (d : RTDescriptor) (fg : FrameGraph) :
    (resolveFinalState d fg).attachments = validityMask d.attachments ∧
    (resolveFinalState d fg).maxW =
      List.foldl Nat.max 0 ((validSlotsList d.attachments).map (slotW fg)) ∧
    (resolveFinalState d fg).maxH =
      List.foldl Nat.max 0 ((validSlotsList d.attachments).map (slotH fg)) := by
  unfold resolveFinalState
  cases hc : d.attachments.color.isValid <;>
    cases hd : d.attachments.depth.isValid <;>
    cases hs : d.attachments.stencil.isValid <;>
    simp [resolveSlot_attachments, resolveSlot_maxW, resolveSlot_maxH,
      resolveSlot_slotW, resolveSlot_slotH, hc, hd, hs, validSlotsList, validityMask,
      TargetBufferFlags.or, TargetBufferFlags.NONE, slotFlag]

theorem resolve_attachments_eq (e : RenderTargetResourceEntry) (fg : FrameGraph) :
    (resolve e fg).1.attachments = validityMask e.descriptor.attachments := by
  have h := (resolveFinalState_char e.descriptor fg).1
  rw [← h]
  unfold resolve
  by_cases ha : (resolveFinalState e.descriptor fg).attachments.any = true <;>
    simp [ha]

theorem resolve_snd_eq (e : RenderTargetResourceEntry) (fg : FrameGraph) :
    (resolve e fg).2 = (resolveFinalState e.descriptor fg).fg := by
  unfold resolve
  by_cases ha : (resolveFinalState e.descriptor fg).attachments.any = true <;>
    simp [ha]

theorem resolve_width_height (e : RenderTargetResourceEntry) (fg : FrameGraph) :
    (resolve e fg).1.width =
      (if (resolveFinalState e.descriptor fg).attachments.any then
        (resolveFinalState e.descriptor fg).maxW else 0) ∧
    (resolve e fg).1.height =
      (if (resolveFinalState e.descriptor fg).attachments.any then
        (resolveFinalState e.descriptor fg).maxH else 0) := by
  unfold resolve
  by_cases h : (resolveFinalState e.descriptor fg).attachments.any = true
  · by_cases hmm : ((resolveFinalState e.descriptor fg).minW ==
        (resolveFinalState e.descriptor fg).maxW &&
        (resolveFinalState e.descriptor fg).minH ==
        (resolveFinalState e.descriptor fg).maxH) = true
    · have h1 : (resolveFinalState e.descriptor fg).minW =
          (resolveFinalState e.descriptor fg).maxW := by
        have := (Bool.and_eq_true _ _).mp hmm
        exact beq_iff_eq.mp this.1
      have h2 : (resolveFinalState e.descriptor fg).minH =
          (resolveFinalState e.descriptor fg).maxH := by
        have := (Bool.and_eq_true _ _).mp hmm
        exact beq_iff_eq.mp this.2
      simp [h, hmm, h1, h2]
    · simp [h, hmm]
  · simp [h]

theorem validityMask_any_false (a : Attachments)
    (h : (validityMask a).any = false) :
    a.color.isValid = false ∧ a.depth.isValid = false ∧ a.stencil.isValid = false := by
  unfold validityMask TargetBufferFlags.any at h
  simpa [and_assoc] using h

theorem foldl_max_all_eq (w : Nat) :
    ∀ l : List Nat, (∀ x ∈ l, x = w) → List.foldl Nat.max w l = w := by
  intro l
  induction l with
  | nil => intro _; rfl
  | cons a t ih =>
      intro h
      have ha : a = w := h a (List.mem_cons_self a t)
      have ht : ∀ x ∈ t, x = w := fun x hx => h x (List.mem_cons_of_mem a hx)
      simp [ha, Nat.max_self, ih ht]

theorem foldl_max_zero_all_eq (w : Nat) (l : List Nat) (hne : l ≠ [])
    (h : ∀ x ∈ l, x = w) : List.foldl Nat.max 0 l = w := by
  cases l with
  | nil => exact absurd rfl hne
  | cons a t =>
      have ha : a = w := h a (List.mem_cons_self a t)
      have ht : ∀ x ∈ t, x = w := fun x hx => h x (List.mem_cons_of_mem a hx)
      simp [ha, foldl_max_all_eq w t ht]

/-- C1: `resolve` computes the resolved width and height as follows: if no
attachment slot is valid, both are zero; if at least one slot is valid,
width (resp. height) is the maximum of the mip-scaled widths (resp.
heights) — base dimension shifted right by the attachment's mip level —
over all valid slots; and whenever all valid slots agree in both axes, the
resolved dimensions are that common value. -/
theorem resolve_resolved_dimensions (e : RenderTargetResourceEntry) (fg : FrameGraph) :
    (validSlotsList e.descriptor.attachments = [] →
      (resolve e fg).1.width = 0 ∧ (resolve e fg).1.height = 0) ∧
    (validSlotsList e.descriptor.attachments ≠ [] →
      (resolve e fg).1.width =
        List.foldl Nat.max 0 ((validSlotsList e.descriptor.attachments).map (slotW fg)) ∧
      (resolve e fg).1.height =
        List.foldl Nat.max 0 ((validSlotsList e.descriptor.attachments).map (slotH fg))) ∧
    (∀ w h, validSlotsList e.descriptor.attachments ≠ [] →
      (∀ a ∈ validSlotsList e.descriptor.attachments, slotW fg a = w ∧ slotH fg a = h) →
      (resolve e fg).1.width = w ∧ (resolve e fg).1.height = h) := by
  obtain ⟨hA, hW, hH⟩ := resolveFinalState_char e.descriptor fg
  obtain ⟨hw, hh⟩ := resolve_width_height e fg
  have hany : (resolveFinalState e.descriptor fg).attachments.any =
      (validityMask e.descriptor.attachments).any := by rw [hA]
  refine ⟨?_, ?_, ?_⟩
  · intro hnil
    have hmask : (validityMask e.descriptor.attachments).any = false := by
      unfold validSlotsList at hnil
      unfold validityMask TargetBufferFlags.any
      cases hc : e.descriptor.attachments.color.isValid <;>
        cases hd : e.descriptor.attachments.depth.isValid <;>
        cases hs : e.descriptor.attachments.stencil.isValid <;>
        simp_all
    rw [hany] at hw hh
    simp [hw, hh, hmask]
  · intro hne
    have hmask : (validityMask e.descriptor.attachments).any = true := by
      unfold validSlotsList at hne
      unfold validityMask TargetBufferFlags.any
      cases hc : e.descriptor.attachments.color.isValid <;>
        cases hd : e.descriptor.attachments.depth.isValid <;>
        cases hs : e.descriptor.attachments.stencil.isValid <;>
        simp_all
    rw [hany] at hw hh
    rw [hw, hh, hmask]
    simp [hW, hH]
  · intro w h hne hall
    have hmask : (validityMask e.descriptor.attachments).any = true := by
      unfold validSlotsList at hne
      unfold validityMask TargetBufferFlags.any
      cases hc : e.descriptor.attachments.color.isValid <;>
        cases hd : e.descriptor.attachments.depth.isValid <;>
        cases hs : e.descriptor.attachments.stencil.isValid <;>
        simp_all
    rw [hany] at hw hh
    rw [hw, hh, hmask]
    simp only [if_pos rfl, if_true, hW, hH]
    constructor
    · refine foldl_max_zero_all_eq w _ ?_ ?_
      · simpa using hne
      · intro x hx
        obtain ⟨a, ha, rfl⟩ := List.mem_map.mp hx
        exact (hall a ha).1
    · refine foldl_max_zero_all_eq h _ ?_ ?_
      · simpa using hne
      · intro x hx
        obtain ⟨a, ha, rfl⟩ := List.mem_map.mp hx
        exact (hall a ha).2

theorem resolve_descriptor_eq (e : RenderTargetResourceEntry) (fg : FrameGraph) :
    (resolve e fg).1.descriptor = e.descriptor := by
  unfold resolve
  by_cases ha : (resolveFinalState e.descriptor fg).attachments.any = true <;>
    simp [ha]

theorem resolveFinalState_slotW (d : RTDescriptor) (fg : FrameGraph)
    (a : AttachmentInfo) : slotW (resolveFinalState d fg).fg a = slotW fg a := by
  unfold resolveFinalState
  rw [resolveSlot_slotW, resolveSlot_slotW, resolveSlot_slotW]

theorem resolveFinalState_slotH (d : RTDescriptor) (fg : FrameGraph)
    (a : AttachmentInfo) : slotH (resolveFinalState d fg).fg a = slotH fg a := by
  unfold resolveFinalState
  rw [resolveSlot_slotH, resolveSlot_slotH, resolveSlot_slotH]

theorem resolve_width_closed (e : RenderTargetResourceEntry) (fg : FrameGraph) :
    (resolve e fg).1.width =
      (if (validityMask e.descriptor.attachments).any then
        List.foldl Nat.max 0 ((validSlotsList e.descriptor.attachments).map (slotW fg))
      else 0) ∧
    (resolve e fg).1.height =
      (if (validityMask e.descriptor.attachments).any then
        List.foldl Nat.max 0 ((validSlotsList e.descriptor.attachments).map (slotH fg))
      else 0) := by
  obtain ⟨hA, hW, hH⟩ := resolveFinalState_char e.descriptor fg
  obtain ⟨hw, hh⟩ := resolve_width_height e fg
  rw [hA, hW] at hw
  rw [hA, hH] at hh
  exact ⟨hw, hh⟩

/-- C10 (implicit): `resolve` resets the entry's resolved fields before
recomputing them, so `activeSlots`, `width` and `height` after `resolve`
are a function only of the entry's descriptor and the referenced texture
entries in the frame graph, independent of any previously resolved state;
in particular running `resolve` twice in succession leaves those fields
identical to running it once. -/
theorem resolve_resolved_state_independent
    (e1 e2 : RenderTargetResourceEntry) (fg : FrameGraph)
    (hd : e1.descriptor = e2.descriptor) :
    ((resolve e1 fg).1.attachments = (resolve e2 fg).1.attachments ∧
     (resolve e1 fg).1.width = (resolve e2 fg).1.width ∧
     (resolve e1 fg).1.height = (resolve e2 fg).1.height) ∧
    ((resolve (resolve e1 fg).1 (resolve e1 fg).2).1.attachments =
        (resolve e1 fg).1.attachments ∧
     (resolve (resolve e1 fg).1 (resolve e1 fg).2).1.width = (resolve e1 fg).1.width ∧
     (resolve (resolve e1 fg).1 (resolve e1 fg).2).1.height = (resolve e1 fg).1.height) := by
  have hfg : slotW (resolve e1 fg).2 = slotW fg ∧ slotH (resolve e1 fg).2 = slotH fg := by
    rw [resolve_snd_eq]
    exact ⟨funext fun a => resolveFinalState_slotW e1.descriptor fg a,
      funext fun a => resolveFinalState_slotH e1.descriptor fg a⟩
  have hdesc : (resolve e1 fg).1.descriptor = e1.descriptor := resolve_descriptor_eq e1 fg
  constructor
  · refine ⟨?_, ?_, ?_⟩
    · rw [resolve_attachments_eq, resolve_attachments_eq, hd]
    · rw [(resolve_width_closed e1 fg).1, (resolve_width_closed e2 fg).1, hd]
    · rw [(resolve_width_closed e1 fg).2, (resolve_width_closed e2 fg).2, hd]
  · refine ⟨?_, ?_, ?_⟩
    · rw [resolve_attachments_eq, resolve_attachments_eq, hdesc]
    · rw [(resolve_width_closed (resolve e1 fg).1 (resolve e1 fg).2).1,
        (resolve_width_closed e1 fg).1, hdesc, hfg.1]
    · rw [(resolve_width_closed (resolve e1 fg).1 (resolve e1 fg).2).2,
        (resolve_width_closed e1 fg).2, hdesc, hfg.2]

theorem resolve_resolved_dimensions_witness :
    (resolve eC1 fgC1).1.width = 512 ∧ (resolve eC1 fgC1).1.height = 512 := by
  obtain ⟨h0, h1, h2⟩ := resolve_resolved_dimensions eC1 fgC1
  obtain ⟨hw, hh⟩ := h1 (by decide)
  rw [hw, hh]
  constructor <;> decide

theorem resolve_resolved_state_independent_witness :
    (resolve eC1 fgC1).1.width = (resolve eC10 fgC1).1.width ∧
    (resolve (resolve eC1 fgC1).1 (resolve eC1 fgC1).2).1.width =
      (resolve eC1 fgC1).1.width := by
  have h := resolve_resolved_state_independent eC1 eC10 fgC1 (by decide)
  exact ⟨h.1.2.1, h.2.2.1⟩

theorem preExecuteDevirtualize_params (nh : Nat) (fg : FrameGraph)
    (e : RenderTargetResourceEntry) (p : RenderTargetResourceEntry × Option CreateCall)
    (hp : preExecuteDevirtualize nh fg e = some p) :
    p.1.resource.params = e.resource.params := by
  unfold preExecuteDevirtualize at hp
  by_cases hi : e.imported = true
  · rw [if_pos hi] at hp
    rw [← Option.some.inj hp]
  · rw [if_neg hi] at hp
    split at hp
    · rw [← Option.some.inj hp]
    · exact Option.noConfusion hp

theorem applyOp_clear_invariant (e : RenderTargetResourceEntry) (op : FgOp)
    (h : e.resource.params.flags.clear = TargetBufferFlags.NONE) :
    (applyOp e op).resource.params.flags.clear = TargetBufferFlags.NONE := by
  cases op with
  | update fg =>
      unfold applyOp updateEntry
      by_cases ha : e.attachments.any = true <;> simp [ha, h]
  | devirtualize nh fg =>
      unfold applyOp
      cases hp : preExecuteDevirtualize nh fg e with
      | none => simp [hp, h]
      | some p =>
          have hq := preExecuteDevirtualize_params nh fg e p hp
          simp [hp, hq, h]
  | destroy =>
      unfold applyOp postExecuteDestroy
      by_cases hi : e.imported = true
      · simp [hi, h]
      · cases ht : e.resource.target <;> simp [hi, ht, h]
  | postDevirtualize =>
      unfold applyOp postExecuteDevirtualizeEntry
      simp

theorem foldl_applyOp_clear_invariant (ops : List FgOp) :
    ∀ e : RenderTargetResourceEntry,
      e.resource.params.flags.clear = TargetBufferFlags.NONE →
      (ops.foldl applyOp e).resource.params.flags.clear = TargetBufferFlags.NONE := by
  induction ops with
  | nil => intro e h; exact h
  | cons op t ih =>
      intro e h
      exact ih (applyOp e op) (applyOp_clear_invariant e op h)

/-- C3: after the post-devirtualize reset that follows the first pass that
used the entry's real object, the persistent clear mask is empty, and it
stays empty under every further sequence of per-pass protocol steps
(update, devirtualize, destroy, post-devirtualize reset) — clearing is
never re-requested once any pass has executed against the real object. -/
theorem clear_empty_after_first_use (e : RenderTargetResourceEntry) (ops : List FgOp) :
    (postExecuteDevirtualizeEntry e).resource.params.flags.clear = TargetBufferFlags.NONE ∧
    (ops.foldl applyOp (postExecuteDevirtualizeEntry e)).resource.params.flags.clear =
      TargetBufferFlags.NONE := by
  have h0 : (postExecuteDevirtualizeEntry e).resource.params.flags.clear =
      TargetBufferFlags.NONE := rfl
  exact ⟨h0, foldl_applyOp_clear_invariant ops _ h0⟩

theorem nodeDiscardFlags_eq (fg : FrameGraph) (a : Attachments)
    (sel : ResourceNodeInfo → Bool) :
    nodeDiscardFlags fg a sel =
      ⟨a.color.isValid && sel (fg.resourceNodes a.color.index),
       a.depth.isValid && sel (fg.resourceNodes a.depth.index),
       a.stencil.isValid && sel (fg.resourceNodes a.stencil.index)⟩ := by
  unfold nodeDiscardFlags
  cases h0 : a.color.isValid && sel (fg.resourceNodes a.color.index) <;>
    cases h1 : a.depth.isValid && sel (fg.resourceNodes a.depth.index) <;>
    cases h2 : a.stencil.isValid && sel (fg.resourceNodes a.stencil.index) <;>
    simp [h0, h1, h2, TargetBufferFlags.or, TargetBufferFlags.NONE, slotFlag]

theorem updateEntry_flags (fg : FrameGraph) (e : RenderTargetResourceEntry)
    (h : e.attachments.any = true) :
    (updateEntry fg e).1.resource.params.flags.discardStart =
      (nodeDiscardFlags fg e.descriptor.attachments fun n => n.discardStart).or
        e.resource.params.flags.clear ∧
    (updateEntry fg e).1.resource.params.flags.discardEnd =
      (nodeDiscardFlags fg e.descriptor.attachments fun n => n.discardEnd) ∧
    (updateEntry fg e).2 = !e.resource.target.isSome := by
  unfold updateEntry
  simp [h]

/-- C4: for an entry with at least one active slot, `update` recomputes
discard-start and discard-end from scratch: per slot, the discard-start
bit is set iff the pass's resource node for that slot's virtual texture
declares discard-at-start (symmetrically for discard-end), except that the
persistent clear mask is ORed into discard-start — so discard-start always
includes every bit of the clear mask. -/
theorem update_discard_flags (fg : FrameGraph) (e : RenderTargetResourceEntry)
    (h : e.attachments.any = true) :
    (∀ s, s < 3 →
      (updateEntry fg e).1.resource.params.flags.discardStart.get s =
        ((slotAtt e.descriptor.attachments s).isValid &&
          (fg.resourceNodes (slotAtt e.descriptor.attachments s).index).discardStart ||
         e.resource.params.flags.clear.get s) ∧
      (updateEntry fg e).1.resource.params.flags.discardEnd.get s =
        ((slotAtt e.descriptor.attachments s).isValid &&
          (fg.resourceNodes (slotAtt e.descriptor.attachments s).index).discardEnd)) ∧
    (∀ s, s < 3 → e.resource.params.flags.clear.get s = true →
      (updateEntry fg e).1.resource.params.flags.discardStart.get s = true) := by
  obtain ⟨hds, hde, _⟩ := updateEntry_flags fg e h
  rw [nodeDiscardFlags_eq] at hds hde
  constructor
  · intro s hs
    interval_cases s <;>
      simp [hds, hde, TargetBufferFlags.get, TargetBufferFlags.or, slotAtt]
  · intro s hs hc
    interval_cases s <;>
      simp_all [hds, TargetBufferFlags.get, TargetBufferFlags.or, slotAtt]

theorem update_discard_flags_witness :
    eC4.attachments.any = true ∧
    (updateEntry fgC4 eC4).1.resource.params.flags.discardStart.get 0 = true ∧
    (updateEntry fgC4 eC4).1.resource.params.flags.discardEnd.get 1 = true := by
  have h := update_discard_flags fgC4 eC4 (by decide)
  refine ⟨by decide, ?_, ?_⟩
  · rw [(h.1 0 (by norm_num)).1]
    decide
  · rw [(h.1 1 (by norm_num)).2]
    decide

/-- C5: during `update` of an entry with at least one active slot, the
non-fatal diagnostic naming the pass and the render target is raised iff
the executing pass is not the pass that declared this render target (as
observed through the entry's real-target handle, per the spec-modelled
driver protocol); execution proceeds either way, with the discard flags
still computed from the pass's resource nodes. -/
theorem update_diagnostic_iff (fg : FrameGraph) (e : RenderTargetResourceEntry)
    (h : e.attachments.any = true) :
    ((updateEntry fg e).2 = true ↔ passDeclaresTarget e = false) ∧
    (updateEntry fg e).1.resource.params.flags.discardStart =
      (nodeDiscardFlags fg e.descriptor.attachments fun n => n.discardStart).or
        e.resource.params.flags.clear ∧
    (updateEntry fg e).1.resource.params.flags.discardEnd =
      (nodeDiscardFlags fg e.descriptor.attachments fun n => n.discardEnd) := by
  obtain ⟨hds, hde, hdiag⟩ := updateEntry_flags fg e h
  refine ⟨?_, hds, hde⟩
  rw [hdiag]
  unfold passDeclaresTarget
  cases e.resource.target <;> simp

theorem update_diagnostic_iff_witness :
    eC4.attachments.any = true ∧
    (updateEntry fgC4 eC4).2 = true ∧
    (updateEntry fgC4 eC5).2 = false := by
  refine ⟨by decide, ?_, ?_⟩
  · exact ((update_diagnostic_iff fgC4 eC4 (by decide)).1).mpr (by decide)
  · have h := (update_diagnostic_iff fgC4 eC5 (by decide)).1
    cases hb : (updateEntry fgC4 eC5).2
    · rfl
    · exact absurd (h.mp hb) (by decide)

/-- C6: for an imported entry, devirtualize and destroy are both complete
no-ops: the entry (including `realTarget`) is returned unchanged and no
allocator create or destroy call is emitted, so any number of referencing
passes leaves the externally supplied handle untouched. -/
theorem imported_entry_noop (nh : Nat) (fg : FrameGraph)
    (e : RenderTargetResourceEntry) (h : e.imported = true) :
    preExecuteDevirtualize nh fg e = some (e, none) ∧
    postExecuteDestroy e = (e, none) := by
  unfold preExecuteDevirtualize postExecuteDestroy
  simp [h]

theorem imported_entry_noop_witness :
    eC6.imported = true ∧
    preExecuteDevirtualize 5 fgC1 eC6 = some (eC6, none) ∧
    postExecuteDestroy eC6 = (eC6, none) := by
  have h := imported_entry_noop 5 fgC1 eC6 (by decide)
  exact ⟨by decide, h.1, h.2⟩

/-- C9: `postExecuteDestroy` requests allocator destruction and nulls
`realTarget` iff the entry is not imported and `realTarget` is non-null;
in every other case it changes nothing; the handle destroyed is exactly
the held one, and a repeated call never emits a second destroy — the
allocator's destroy is never invoked with a null or already-destroyed
handle. -/
theorem destroy_characterization (e : RenderTargetResourceEntry) :
    ((postExecuteDestroy e).2 ≠ none ↔ e.imported = false ∧ e.resource.target ≠ none) ∧
    ((postExecuteDestroy e).2 = none → (postExecuteDestroy e).1 = e) ∧
    (∀ x, (postExecuteDestroy e).2 = some x → e.resource.target = some x ∧
      (postExecuteDestroy e).1.resource.target = none) ∧
    (postExecuteDestroy (postExecuteDestroy e).1).2 = none := by
  by_cases hi : e.imported = true
  · simp [postExecuteDestroy, hi]
  · have hi' : e.imported = false := by simpa using hi
    cases ht : e.resource.target with
    | none => simp [postExecuteDestroy, hi, hi', ht]
    | some t => simp [postExecuteDestroy, hi, hi', ht]

theorem destroy_characterization_witness :
    eC5.resource.target = some 11 ∧
    (postExecuteDestroy eC5).2 = some 11 ∧
    (postExecuteDestroy (postExecuteDestroy eC5).1).2 = none := by
  have h := destroy_characterization eC5
  exact ⟨(h.2.2.1 11 (by decide)).1, by decide, h.2.2.2⟩

theorem slotAssertOk_iff (fg : FrameGraph) (rt : RTDescriptor)
    (mask : TargetBufferFlags) (slot : Nat) (att : AttachmentInfo)
    (hm : mask.get slot = att.isValid) :
    slotAssertOk fg rt mask slot att = true ↔ slotPrecondOk fg rt att := by
  unfold slotAssertOk slotPrecondOk
  cases hv : att.isValid with
  | false => simp [hm, hv]
  | true =>
      simp [hm, hv, Option.isSome_iff_ne_none, and_assoc]

/-- C8: for a non-imported entry whose resolved mask agrees bit for bit
with attachment validity (as the debug assert demands and `resolve`
establishes), `preExecuteDevirtualize` passes all its fatal assertions iff
at least one slot is active and every valid attachment satisfies the
preconditions: real texture handle non-null, mip level strictly below the
declared level count, and (when multisampled) sample count equal to the
render target's. -/
theorem devirtualize_assertions (nh : Nat) (fg : FrameGraph)
    (e : RenderTargetResourceEntry)
    (him : e.imported = false)
    (hmask : e.attachments = validityMask e.descriptor.attachments) :
    (preExecuteDevirtualize nh fg e).isSome = true ↔
      (e.attachments.any = true ∧
       slotPrecondOk fg e.descriptor e.descriptor.attachments.color ∧
       slotPrecondOk fg e.descriptor e.descriptor.attachments.depth ∧
       slotPrecondOk fg e.descriptor e.descriptor.attachments.stencil) := by
  have hm0 : e.attachments.get 0 = e.descriptor.attachments.color.isValid := by
    rw [hmask]; rfl
  have hm1 : e.attachments.get 1 = e.descriptor.attachments.depth.isValid := by
    rw [hmask]; rfl
  have hm2 : e.attachments.get 2 = e.descriptor.attachments.stencil.isValid := by
    rw [hmask]; rfl
  unfold preExecuteDevirtualize
  rw [if_neg (by simp [him])]
  have hiff0 := slotAssertOk_iff fg e.descriptor e.attachments 0
    e.descriptor.attachments.color hm0
  have hiff1 := slotAssertOk_iff fg e.descriptor e.attachments 1
    e.descriptor.attachments.depth hm1
  have hiff2 := slotAssertOk_iff fg e.descriptor e.attachments 2
    e.descriptor.attachments.stencil hm2
  by_cases hc : (e.attachments.any &&
      slotAssertOk fg e.descriptor e.attachments 0 e.descriptor.attachments.color &&
      slotAssertOk fg e.descriptor e.attachments 1 e.descriptor.attachments.depth &&
      slotAssertOk fg e.descriptor e.attachments 2 e.descriptor.attachments.stencil) = true
  · rw [if_pos hc]
    simp only [Bool.and_eq_true] at hc
    simp [hc.1.1.1, hiff0.mp hc.1.1.2, hiff1.mp hc.1.2, hiff2.mp hc.2]
  · rw [if_neg hc]
    simp only [Option.isSome_none, Bool.false_eq_true, false_iff, not_and]
    intro hany h0 h1 h2
    exact hc (by simp [hany, hiff0.mpr h0, hiff1.mpr h1, hiff2.mpr h2])

theorem devirtualize_assertions_witness :
    eC4.imported = false ∧
    (preExecuteDevirtualize 3 fgC1 eC4).isSome = true := by
  refine ⟨by decide, ?_⟩
  exact (devirtualize_assertions 3 fgC1 eC4 (by decide) (by decide)).mpr
    (by refine ⟨by decide, ?_, ?_, ?_⟩ <;> intro hv <;> refine ⟨by decide, by decide, by decide⟩)

/-- C2 counterexample: a non-imported entry with a valid stencil slot
whose devirtualization succeeds, yet the composite-target creation call
carries the default-constructed (null) stencil record — the C++ call is
`createRenderTarget(..., infos[0], infos[1], {})` — and not the per-slot
binding built for the valid stencil attachment (handle 5, level 0). So the
claim that the bindings of all valid slots, stencil included, are passed
to the allocator fails at this input. -/
theorem devirtualize_stencil_dropped :
    eC2.imported = false ∧
    eC2.descriptor.attachments.stencil.isValid = true ∧
    preExecuteDevirtualize 9 fgC2 eC2 = some (eC2r, some callC2) ∧
    buildInfo fgC2 eC2.descriptor.attachments.stencil = ⟨some 5, 0⟩ ∧
    callC2.stencil ≠ buildInfo fgC2 eC2.descriptor.attachments.stencil := by
  refine ⟨by decide, by decide, by decide, by decide, by decide⟩

/-- C2 (amended): for a non-imported entry, devirtualize builds per-slot
binding records for the valid color and depth slots and passes them,
together with the active-slot mask, resolved width/height and sample
count, to the allocator's composite-target creation call; the stencil
argument of that call is always the default (null) binding record, even
when the stencil slot is valid, and the entry's real target becomes the
allocator's returned handle. -/
theorem devirtualize_create_call (nh : Nat) (fg : FrameGraph)
    (e e2 : RenderTargetResourceEntry) (call : CreateCall)
    (him : e.imported = false)
    (hp : preExecuteDevirtualize nh fg e = some (e2, some call)) :
    call.name = e.name ∧ call.attachments = e.attachments ∧
    call.width = e.width ∧ call.height = e.height ∧
    call.samples = e.descriptor.samples ∧
    call.color = buildInfo fg e.descriptor.attachments.color ∧
    call.depth = buildInfo fg e.descriptor.attachments.depth ∧
    call.stencil = TargetBufferInfo.default ∧
    e2.resource.target = some nh := by
  unfold preExecuteDevirtualize at hp
  rw [if_neg (by simp [him])] at hp
  split at hp
  · have hq := Option.some.inj hp
    have h1 : ({ e with resource := { e.resource with target := some nh } } :
        RenderTargetResourceEntry) = e2 := congrArg Prod.fst hq
    have h2 := congrArg Prod.snd hq
    have h3 := Option.some.inj h2
    rw [← h3, ← h1]
    exact ⟨rfl, rfl, rfl, rfl, rfl, rfl, rfl, rfl, rfl⟩
  · exact Option.noConfusion hp

theorem devirtualize_create_call_witness :
    preExecuteDevirtualize 9 fgC2 eC2 = some (eC2r, some callC2) ∧
    callC2.stencil = TargetBufferInfo.default ∧
    eC2r.resource.target = some 9 := by
  have h := devirtualize_create_call 9 fgC2 eC2 eC2r callC2 (by decide) (by decide)
  exact ⟨by decide, h.2.2.2.2.2.2.2.1, h.2.2.2.2.2.2.2.2⟩

theorem orUsage_sampleable (slot : Nat) (u : TextureUsage) :
    (orUsage slot u).sampleable = u.sampleable := by
  cases slot with
  | zero => rfl
  | succ n => cases n with
    | zero => rfl
    | succ m => rfl

theorem stepEntry_dims (rt : RTDescriptor) (slot : Nat) (t : TextureEntry) :
    (stepEntry rt slot t).descriptor.width = t.descriptor.width ∧
    (stepEntry rt slot t).descriptor.height = t.descriptor.height := by
  exact ⟨rfl, rfl⟩

theorem stepEntry_samples (rt : RTDescriptor) (slot : Nat) (t : TextureEntry) :
    (stepEntry rt slot t).descriptor.samples =
      (if t.descriptor.samples = 0 ∧ t.descriptor.usage.sampleable = false
       then rt.samples else t.descriptor.samples) := by
  unfold stepEntry
  simp only [orUsage_sampleable]
  cases h2 : t.descriptor.usage.sampleable <;>
    by_cases h1 : t.descriptor.samples = 0 <;>
    simp [h1, h2]

theorem resolveSlot_fg_self (rt : RTDescriptor) (slot : Nat) (att : AttachmentInfo)
    (s : ResolveState) (hv : att.isValid = true) :
    (resolveSlot rt slot att s).fg.textureEntries att.index =
      stepEntry rt slot (s.fg.textureEntries att.index) := by
  unfold resolveSlot
  rw [if_pos hv]
  exact Function.update_same _ _ _

theorem resolveSlot_fg_other (rt : RTDescriptor) (slot : Nat) (att : AttachmentInfo)
    (s : ResolveState) (j : Nat) (hj : att.isValid = true → j ≠ att.index) :
    (resolveSlot rt slot att s).fg.textureEntries j = s.fg.textureEntries j := by
  cases hv : att.isValid with
  | false => rw [resolveSlot_invalid rt slot att s hv]
  | true =>
      unfold resolveSlot
      rw [if_pos hv]
      exact Function.update_noteq (hj hv) _ _

/-- C7: during `resolve`, for each valid attachment slot (slots referencing
pairwise distinct texture entries), the referenced texture entry's sample
count becomes the render target's requested sample count iff it was
previously unset (zero) and its usage does not mark it SAMPLEABLE;
otherwise it is left unchanged. -/
theorem resolve_sample_propagation (e : RenderTargetResourceEntry) (fg : FrameGraph)
    (hdist : ∀ i, i < 3 → ∀ j, j < 3 → i ≠ j →
      (slotAtt e.descriptor.attachments i).isValid = true →
      (slotAtt e.descriptor.attachments j).isValid = true →
      (slotAtt e.descriptor.attachments i).index ≠ (slotAtt e.descriptor.attachments j).index) :
    ∀ s, s < 3 → (slotAtt e.descriptor.attachments s).isValid = true →
      ((resolve e fg).2.textureEntries
          (slotAtt e.descriptor.attachments s).index).descriptor.samples =
        (if (fg.textureEntries (slotAtt e.descriptor.attachments s).index).descriptor.samples = 0 ∧
            (fg.textureEntries
              (slotAtt e.descriptor.attachments s).index).descriptor.usage.sampleable = false
         then e.descriptor.samples
         else (fg.textureEntries (slotAtt e.descriptor.attachments s).index).descriptor.samples) := by
  intro s hs hv
  rw [resolve_snd_eq]
  unfold resolveFinalState
  interval_cases s
  · have hv0 : e.descriptor.attachments.color.isValid = true := hv
    have h01 : e.descriptor.attachments.depth.isValid = true →
        e.descriptor.attachments.color.index ≠ e.descriptor.attachments.depth.index :=
      fun h1 => hdist 0 (by norm_num) 1 (by norm_num) (by norm_num) hv0 h1
    have h02 : e.descriptor.attachments.stencil.isValid = true →
        e.descriptor.attachments.color.index ≠ e.descriptor.attachments.stencil.index :=
      fun h2 => hdist 0 (by norm_num) 2 (by norm_num) (by norm_num) hv0 h2
    show ((resolveSlot e.descriptor 2 e.descriptor.attachments.stencil
        (resolveSlot e.descriptor 1 e.descriptor.attachments.depth
          (resolveSlot e.descriptor 0 e.descriptor.attachments.color
            ⟨fg, TargetBufferFlags.NONE, 4294967295, 0, 4294967295, 0⟩))).fg.textureEntries
        e.descriptor.attachments.color.index).descriptor.samples =
      (if (fg.textureEntries e.descriptor.attachments.color.index).descriptor.samples = 0 ∧
          (fg.textureEntries
            e.descriptor.attachments.color.index).descriptor.usage.sampleable = false
       then e.descriptor.samples
       else (fg.textureEntries e.descriptor.attachments.color.index).descriptor.samples)
    rw [resolveSlot_fg_other _ 2 _ _ _ h02, resolveSlot_fg_other _ 1 _ _ _ h01,
      resolveSlot_fg_self _ 0 _ _ hv0]
    exact stepEntry_samples e.descriptor 0 _
  · have hv1 : e.descriptor.attachments.depth.isValid = true := hv
    have h10 : e.descriptor.attachments.color.isValid = true →
        e.descriptor.attachments.depth.index ≠ e.descriptor.attachments.color.index :=
      fun h0 => hdist 1 (by norm_num) 0 (by norm_num) (by norm_num) hv1 h0
    have h12 : e.descriptor.attachments.stencil.isValid = true →
        e.descriptor.attachments.depth.index ≠ e.descriptor.attachments.stencil.index :=
      fun h2 => hdist 1 (by norm_num) 2 (by norm_num) (by norm_num) hv1 h2
    show ((resolveSlot e.descriptor 2 e.descriptor.attachments.stencil
        (resolveSlot e.descriptor 1 e.descriptor.attachments.depth
          (resolveSlot e.descriptor 0 e.descriptor.attachments.color
            ⟨fg, TargetBufferFlags.NONE, 4294967295, 0, 4294967295, 0⟩))).fg.textureEntries
        e.descriptor.attachments.depth.index).descriptor.samples =
      (if (fg.textureEntries e.descriptor.attachments.depth.index).descriptor.samples = 0 ∧
          (fg.textureEntries
            e.descriptor.attachments.depth.index).descriptor.usage.sampleable = false
       then e.descriptor.samples
       else (fg.textureEntries e.descriptor.attachments.depth.index).descriptor.samples)
    rw [resolveSlot_fg_other _ 2 _ _ _ h12, resolveSlot_fg_self _ 1 _ _ hv1,
      resolveSlot_fg_other _ 0 _ _ _ h10]
    exact stepEntry_samples e.descriptor 1 _
  · have hv2 : e.descriptor.attachments.stencil.isValid = true := hv
    have h20 : e.descriptor.attachments.color.isValid = true →
        e.descriptor.attachments.stencil.index ≠ e.descriptor.attachments.color.index :=
      fun h0 => hdist 2 (by norm_num) 0 (by norm_num) (by norm_num) hv2 h0
    have h21 : e.descriptor.attachments.depth.isValid = true →
        e.descriptor.attachments.stencil.index ≠ e.descriptor.attachments.depth.index :=
      fun h1 => hdist 2 (by norm_num) 1 (by norm_num) (by norm_num) hv2 h1
    show ((resolveSlot e.descriptor 2 e.descriptor.attachments.stencil
        (resolveSlot e.descriptor 1 e.descriptor.attachments.depth
          (resolveSlot e.descriptor 0 e.descriptor.attachments.color
            ⟨fg, TargetBufferFlags.NONE, 4294967295, 0, 4294967295, 0⟩))).fg.textureEntries
        e.descriptor.attachments.stencil.index).descriptor.samples =
      (if (fg.textureEntries e.descriptor.attachments.stencil.index).descriptor.samples = 0 ∧
          (fg.textureEntries
            e.descriptor.attachments.stencil.index).descriptor.usage.sampleable = false
       then e.descriptor.samples
       else (fg.textureEntries e.descriptor.attachments.stencil.index).descriptor.samples)
    rw [resolveSlot_fg_self _ 2 _ _ hv2, resolveSlot_fg_other _ 1 _ _ _ h21,
      resolveSlot_fg_other _ 0 _ _ _ h20]
    exact stepEntry_samples e.descriptor 2 _

theorem resolve_sample_propagation_witness :
    ((resolve eC7 fgC7).2.textureEntries 0).descriptor.samples = 4 := by
  have h := resolve_sample_propagation eC7 fgC7
    (by
      intro i hi j hj hne
      interval_cases i <;> interval_cases j <;>
        first
        | exact absurd rfl hne
        | decide)
    0 (by norm_num) (by decide)
  have h2 : ((resolve eC7 fgC7).2.textureEntries 0).descriptor.samples =
      (if (fgC7.textureEntries 0).descriptor.samples = 0 ∧
          (fgC7.textureEntries 0).descriptor.usage.sampleable = false
       then eC7.descriptor.samples
       else (fgC7.textureEntries 0).descriptor.samples) := h
  rw [h2]
  decide

end FgModel
